import Mathlib

/-!
# ReComposer email-campaign engine — verification of the delivery core

Shallow embedding of the campaign-delivery subsystem of the ReComposer
backend (`app/tasks/email_tasks.py`, `app/routers/brevo_webhook.py`,
`app/routers/tracking.py`, `app/routers/campaigns.py`,
`app/services/reply_detector.py`, `app/tasks/campaign_tasks.py`, and the
models in `app/models/`).

Conventions of the embedding:
* Wall-clock time is a `Nat` counting hours since an epoch; a
  `timedelta(days=d, hours=h)` becomes `d * 24 + h` hours, and the start of
  the calendar day containing hour `t` is `(t / 24) * 24`.
* Database rows become structures; a handler that mutates rows and appends
  event rows becomes a pure function from the old rows (plus the request
  data and the current time) to the new rows.
* The external e-mail provider call is modelled by passing its result
  (`success`/`message_id`/`error`) as an argument to the dispatcher.
* `uuid.uuid4()` is modelled as an injective fresh-name supply
  (`uuidStr`), matching the uniqueness the code relies on (the
  `tracking_id` column carries a UNIQUE constraint).
-/

namespace ReComposer

/-- `RecipientStatus` enum from `app/models/campaign_recipient.py`. -/
inductive RecipientStatus where
  | pending
  | sent
  | replied
  | bounced
  | failed
  | skipped
deriving DecidableEq, Repr

/-- `CampaignStatus` enum from `app/models/campaign.py`. -/
inductive CampaignStatus where
  | draft
  | running
  | paused
  | completed
  | cancelled
deriving DecidableEq, Repr

/-- One row of `campaign_emails` (`app/models/campaign_email.py`):
a step of a campaign's e-mail sequence. -/
structure CampaignEmail where
  step_number : Nat
  subject : String
  body_template : String
  delay_days : Nat
  delay_hours : Nat
deriving DecidableEq, Repr

/-- The `timedelta(days=step.delay_days, hours=step.delay_hours)` of a step,
in hours. -/
def CampaignEmail.delayHours (s : CampaignEmail) : Nat :=
  s.delay_days * 24 + s.delay_hours

/-- One row of `campaign_recipients` (`app/models/campaign_recipient.py`). -/
structure Recipient where
  id : Nat
  campaign_id : Nat
  contact_id : Nat
  current_step : Nat
  status : RecipientStatus
  last_sent_at : Option Nat
  next_send_at : Option Nat
  tracking_id : Option String
  sent_message_id : Option String
  open_count : Nat
  reply_detected_at : Option Nat
  error_message : Option String
deriving DecidableEq, Repr

/-- `EventType` enum from `app/models/email_event.py`. -/
inductive EventType where
  | open
  | reply
  | click
deriving DecidableEq, Repr

/-- One row of `email_events` (`app/models/email_event.py`); metadata is
not needed by any claim and is omitted. -/
structure EmailEvent where
  campaign_recipient_id : Nat
  event_type : EventType
  timestamp : Nat
deriving DecidableEq, Repr

/-- Result of a provider `send_email` call, normalised as in
`app/services/email/email_sender.py`: a `success` flag, an optional
provider message id, an optional error text. -/
structure SendResult where
  success : Bool
  message_id : Option String
  error : Option String
deriving DecidableEq, Repr

/-- `CampaignEmail` lookup
`select(CampaignEmail).where(campaign_id == .., step_number == next_step)`
from `send_campaign_email`: the campaign's steps are given as a list, and
`scalar_one_or_none` becomes `List.find?` on the step number. -/
def findStep (steps : List CampaignEmail) (n : Nat) : Option CampaignEmail :=
  steps.find? (fun s => s.step_number == n)

/-- Outcome of one dispatcher run: the recipient row as committed, and
whether the provider `send_email` call was made. -/
structure DispatchResult where
  recipient : Recipient
  providerCalled : Bool
deriving DecidableEq, Repr

/-- The dispatcher `send_campaign_email` of `app/tasks/email_tasks.py`
(lines 43–151), for a recipient that exists. Inputs beyond the recipient
row: the owning campaign's status, the campaign's steps, whether an
active+default e-mail account exists (`hasAccount`), the provider call's
result, and the current time. Mirrors the source's control flow:
status guard, campaign-status guard, step lookup, account lookup,
provider call and the success/failure commit. -/
def send_campaign_email (recipient : Recipient) (campaignStatus : CampaignStatus)
    (steps : List CampaignEmail) (hasAccount : Bool)
    (sendResult : SendResult) (now : Nat) : DispatchResult :=
  if recipient.status = RecipientStatus.sent ∨ recipient.status = RecipientStatus.replied then
    ⟨recipient, false⟩
  else if campaignStatus ≠ CampaignStatus.running then
    ⟨recipient, false⟩
  else
    let next_step := recipient.current_step + 1
    match findStep steps next_step with
    | none =>
        ⟨{ recipient with status := RecipientStatus.skipped }, false⟩
    | some email_step =>
        if ¬ hasAccount then
          ⟨{ recipient with
              status := RecipientStatus.failed,
              error_message := some "No active email account configured" }, false⟩
        else if sendResult.success then
          ⟨{ recipient with
              status := RecipientStatus.sent,
              current_step := next_step,
              last_sent_at := some now,
              sent_message_id := sendResult.message_id,
              next_send_at := some (now + email_step.delayHours) }, true⟩
        else
          ⟨{ recipient with
              status := RecipientStatus.failed,
              error_message := some (sendResult.error.getD "Send failed") }, true⟩

/-- The due-send selection predicate of `process_pending_emails`
(`app/tasks/email_tasks.py` lines 177–184):
`status == PENDING and next_send_at <= now`. -/
def isDue (r : Recipient) (now : Nat) : Bool :=
  r.status = RecipientStatus.pending &&
    match r.next_send_at with
    | some t => t ≤ now
    | none => false

/-- The poller `process_pending_emails`: ids of the recipients queued for
dispatch this tick — due recipients, truncated to `MAX_EMAILS_PER_MINUTE`. -/
def process_pending_emails (recipients : List Recipient) (now : Nat)
    (maxPerMinute : Nat) : List Nat :=
  ((recipients.filter (fun r => isDue r now)).take maxPerMinute).map (fun r => r.id)

/-! ## Provider webhook (`app/routers/brevo_webhook.py`) -/

/-- The fields of `BrevoWebhookEvent` that the handler reads. -/
structure BrevoEvent where
  event : String
  email : String
  message_id : Option String
  reason : Option String
  link : Option String
deriving DecidableEq, Repr

/-- Python truthiness of an optional string: `None` and `""` are falsy. -/
def pyTruthy : Option String → Bool
  | none => false
  | some s => s ≠ ""

/-- Python `a or b` on an optional string and a default, as in
`event.reason or event.event`. -/
def strOr (o : Option String) (dflt : String) : String :=
  match o with
  | some s => if s = "" then dflt else s
  | none => dflt

/-- `verify_brevo_signature` (`app/routers/brevo_webhook.py` lines 48–75).
The HMAC-SHA256 hex digest is abstracted as a function argument
`hmacHex : secret → raw body → hex string`; `hmac.compare_digest` is
string equality. The guard is the source's
`if not settings.BREVO_WEBHOOK_SECRET or not signature: return True`. -/
def verify_brevo_signature (hmacHex : String → List Nat → String)
    (secret : Option String) (payload : List Nat)
    (signature : Option String) : Bool :=
  if ¬ pyTruthy secret ∨ ¬ pyTruthy signature then
    true
  else
    hmacHex (secret.getD "") payload = signature.getD ""

/-- HTTP status returned by the `brevo_webhook` endpoint for the
signature check (lines 111–119): 401 when verification fails, 200
otherwise. -/
def brevo_webhook_status (hmacHex : String → List Nat → String)
    (secret : Option String) (payload : List Nat)
    (signature : Option String) : Nat :=
  if verify_brevo_signature hmacHex secret payload signature then 200 else 401

/-- Recipient lookup by provider message id
(`select(CampaignRecipient).where(sent_message_id == str(event.message_id))`,
lines 123–130). -/
def findByMessageId (recipients : List Recipient) (m : String) : Option Recipient :=
  recipients.find? (fun r => r.sent_message_id == some m)

/-- The per-event-type effects of `brevo_webhook` on the matched recipient
row and the event log (lines 163–221). Returns the recipient row and the
event list as committed. -/
def processBrevoEvent (recipient : Recipient) (events : List EmailEvent)
    (ev : BrevoEvent) (now : Nat) : Recipient × List EmailEvent :=
  if ev.event = "delivered" then
    ⟨{ (if recipient.status = RecipientStatus.pending then
          { recipient with status := RecipientStatus.sent }
        else recipient) with last_sent_at := some now }, events⟩
  else if ev.event = "hard_bounce" ∨ ev.event = "soft_bounce" then
    ⟨{ recipient with
        status := RecipientStatus.bounced,
        error_message := some ("Bounce: " ++ strOr ev.reason ev.event) }, events⟩
  else if ev.event = "blocked" then
    ⟨{ recipient with
        status := RecipientStatus.failed,
        error_message := some ("Blocked: " ++ strOr ev.reason "Email blocked") }, events⟩
  else if ev.event = "spam" then
    ⟨recipient, events⟩
  else if ev.event = "invalid_email" then
    ⟨{ recipient with
        status := RecipientStatus.failed,
        error_message := some "Invalid email address" }, events⟩
  else if ev.event = "opened" then
    ⟨{ recipient with open_count := recipient.open_count + 1 },
      events ++ [⟨recipient.id, EventType.open, now⟩]⟩
  else if ev.event = "clicked" then
    ⟨recipient, events ++ [⟨recipient.id, EventType.click, now⟩]⟩
  else if ev.event = "unsubscribed" then
    ⟨{ recipient with
        status := RecipientStatus.skipped,
        error_message := some "Unsubscribed" }, events⟩
  else if ev.event = "complaint" then
    ⟨{ recipient with
        status := RecipientStatus.skipped,
        error_message := some "Spam complaint" }, events⟩
  else
    ⟨recipient, events⟩

/-! ## Open-pixel tracking (`app/routers/tracking.py`) -/

/-- The fixed 1×1 transparent PNG `TRACKING_PIXEL`, byte for byte. -/
def TRACKING_PIXEL : List Nat :=
  [137, 80, 78, 71, 13, 10, 26, 10,
   0, 0, 0, 13, 73, 72, 68, 82,
   0, 0, 0, 1, 0, 0, 0, 1,
   8, 6, 0, 0, 0, 31, 21, 196, 137,
   0, 0, 0, 10, 73, 68, 65, 84,
   120, 156, 99, 0, 1, 0, 0, 5, 0, 1, 13, 10, 45, 219,
   0, 0, 0, 0, 73, 69, 78, 68, 174, 66, 96, 130]

/-- `now.replace(hour=0, minute=0, second=0, microsecond=0)` in the
hour-granular time model: the first hour of the calendar day of `now`. -/
def todayStart (now : Nat) : Nat :=
  (now / 24) * 24

/-- The existence check of `track_open` (lines 67–76): is there already an
OPEN event for this recipient with `timestamp >= today_start`? -/
def hasOpenEventToday (events : List EmailEvent) (recipientId : Nat)
    (now : Nat) : Bool :=
  events.any (fun e =>
    e.campaign_recipient_id = recipientId &&
    e.event_type = EventType.open &&
    todayStart now ≤ e.timestamp)

/-- The state mutation of `track_open` for a recognised tracking id
(lines 58–89): increment `open_count` on every hit, append an OPEN event
only when none exists for this recipient today. -/
def track_open (recipient : Recipient) (events : List EmailEvent)
    (now : Nat) : Recipient × List EmailEvent :=
  let r := { recipient with open_count := recipient.open_count + 1 }
  if hasOpenEventToday events recipient.id now then
    ⟨r, events⟩
  else
    ⟨r, events ++ [⟨recipient.id, EventType.open, now⟩]⟩

/-- Recipient lookup by tracking id
(`select(CampaignRecipient).where(tracking_id == tracking_id)`). -/
def findByTrackingId (recipients : List Recipient) (tid : String) : Option Recipient :=
  recipients.find? (fun r => r.tracking_id == some tid)

/-- Result of one `GET /track-open/{tracking_id}` request: the recipient
table and event log as committed, and the response body. -/
structure TrackOpenResult where
  recipients : List Recipient
  events : List EmailEvent
  response : List Nat
deriving DecidableEq, Repr

/-- The `track_open` route (lines 46–102): unknown ids change nothing,
recognised ids run the `track_open` mutation; the response is the fixed
pixel in every case. -/
def track_open_route (recipients : List Recipient) (events : List EmailEvent)
    (tid : String) (now : Nat) : TrackOpenResult :=
  match findByTrackingId recipients tid with
  | none => ⟨recipients, events, TRACKING_PIXEL⟩
  | some r =>
      let upd := track_open r events now
      ⟨recipients.map (fun x => if x.id = r.id then upd.1 else x),
        upd.2, TRACKING_PIXEL⟩

/-! ## Reply detection (`app/services/reply_detector.py`) and follow-up
cancellation (`app/tasks/campaign_tasks.py`) -/

/-- `mark_recipient_as_replied` (lines 105–137) for a recipient that
exists: a no-op when already Replied, otherwise sets Replied, stamps
`reply_detected_at`, clears `next_send_at` and appends one REPLY event. -/
def mark_recipient_as_replied (recipient : Recipient) (events : List EmailEvent)
    (now : Nat) : Recipient × List EmailEvent :=
  if recipient.status = RecipientStatus.replied then
    ⟨recipient, events⟩
  else
    ⟨{ recipient with
        status := RecipientStatus.replied,
        reply_detected_at := some now,
        next_send_at := none },
      events ++ [⟨recipient.id, EventType.reply, now⟩]⟩

/-- `cancel_followups_for_contact` (`app/tasks/campaign_tasks.py` lines
45–58) for a recipient that exists: clears `next_send_at`. -/
def cancel_followups_for_contact (recipient : Recipient) : Recipient :=
  { recipient with next_send_at := none }

/-! ## Campaign creation and launch (`app/routers/campaigns.py`) -/

/-- Models `uuid.uuid4()` as an injective fresh-name supply: the `n`-th
draw is a non-empty string, and distinct draws are distinct — exactly the
properties the code gets from UUID randomness plus the UNIQUE constraint
on the `tracking_id` column. -/
def uuidStr (n : Nat) : String :=
  String.mk (List.replicate (n + 1) 'u')

/-- `CampaignRecipient.generate_tracking_id`
(`app/models/campaign_recipient.py` lines 61–65): issue the fresh id only
when the stored one is falsy (`None` or `""`). -/
def generate_tracking_id (r : Recipient) (fresh : String) : Recipient :=
  if ¬ pyTruthy r.tracking_id then { r with tracking_id := some fresh } else r

/-- The recipient rows created by `create_campaign`
(`app/routers/campaigns.py` lines 230–239): one Pending row per contact,
`current_step = 0`, nothing scheduled, tracking id issued at creation.
`base` numbers the autoincrement row ids and the fresh-uuid draws. -/
def create_recipients (campaignId : Nat) : List Nat → Nat → List Recipient
  | [], _ => []
  | c :: cs, base =>
      generate_tracking_id
        { id := base, campaign_id := campaignId, contact_id := c,
          current_step := 0, status := RecipientStatus.pending,
          last_sent_at := none, next_send_at := none,
          tracking_id := none, sent_message_id := none,
          open_count := 0, reply_detected_at := none,
          error_message := none } (uuidStr base)
        :: create_recipients campaignId cs (base + 1)

/-- The per-recipient effect of `launch_campaign`
(`app/routers/campaigns.py` lines 472–475): status Pending,
`next_send_at = now`, `generate_tracking_id()` (fresh id only if absent).
`base` numbers the fresh-uuid draws of this loop. -/
def launch_recipients : List Recipient → Nat → Nat → List Recipient
  | [], _, _ => []
  | r :: rs, now, base =>
      generate_tracking_id
        { r with status := RecipientStatus.pending, next_send_at := some now }
        (uuidStr base)
        :: launch_recipients rs now (base + 1)

/-! ## The recipient state machine

All code paths of the repository that mutate a `campaign_recipients` row,
collected into one transition relation over the state visible for a single
recipient: the owning campaign's status, the recipient row, and the event
log. The campaign's steps are a fixed parameter. -/

/-- State of one recipient: owning campaign status, the row, the event
log rows belonging to it. -/
structure SysState where
  campaign : CampaignStatus
  recipient : Recipient
  events : List EmailEvent
deriving DecidableEq, Repr

/-- Number of OPEN event rows for a recipient within the calendar day of
`now` (what "one OPEN EmailEvent for that day" counts). -/
def countOpenToday (events : List EmailEvent) (recipientId : Nat) (now : Nat) : Nat :=
  (events.filter (fun e =>
    e.campaign_recipient_id = recipientId &&
    e.event_type = EventType.open &&
    todayStart now ≤ e.timestamp)).length

/-- One transition of the recipient state: each constructor is one code
path of the repository that commits a change to the row or the event log.
`launch` is guarded on the campaign being Draft and `pause` on Running,
as the endpoints are; the dispatcher, the webhook handler, the open
pixel, reply marking and follow-up cancellation can fire at any time
(their own guards are inside the embedded functions). -/
inductive Step (steps : List CampaignEmail) : SysState → SysState → Prop
  | launch (s : SysState) (now base : Nat) :
      s.campaign = CampaignStatus.draft →
      Step steps s
        ⟨CampaignStatus.running,
          generate_tracking_id
            { s.recipient with
                status := RecipientStatus.pending, next_send_at := some now }
            (uuidStr base),
          s.events⟩
  | pause (s : SysState) :
      s.campaign = CampaignStatus.running →
      Step steps s ⟨CampaignStatus.paused, s.recipient, s.events⟩
  | dispatch (s : SysState) (hasAccount : Bool) (res : SendResult) (now : Nat) :
      Step steps s
        ⟨s.campaign,
          (send_campaign_email s.recipient s.campaign steps hasAccount res now).recipient,
          s.events⟩
  | webhook (s : SysState) (ev : BrevoEvent) (now : Nat) :
      Step steps s
        ⟨s.campaign,
          (processBrevoEvent s.recipient s.events ev now).1,
          (processBrevoEvent s.recipient s.events ev now).2⟩
  | reply (s : SysState) (now : Nat) :
      Step steps s
        ⟨s.campaign,
          (mark_recipient_as_replied s.recipient s.events now).1,
          (mark_recipient_as_replied s.recipient s.events now).2⟩
  | cancel (s : SysState) :
      Step steps s
        ⟨s.campaign, cancel_followups_for_contact s.recipient, s.events⟩
  | trackOpen (s : SysState) (now : Nat) :
      Step steps s
        ⟨s.campaign,
          (track_open s.recipient s.events now).1,
          (track_open s.recipient s.events now).2⟩

/-- Reachability under the transition relation. -/
def Reach (steps : List CampaignEmail) : SysState → SysState → Prop :=
  Relation.ReflTransGen (Step steps)

/-- The per-row property "a Replied recipient has nothing scheduled":
`status = Replied → next_send_at = null`. -/
def ReplyCancelled (s : SysState) : Prop :=
  s.recipient.status = RecipientStatus.replied → s.recipient.next_send_at = none

/-! ## Concrete example data -/

/-- A two-step sequence: step 1 with no delay, step 2 with a one-day
delay — the scenario of the spec's §8 example. -/
def exSteps : List CampaignEmail :=
  [⟨1, "s1", "b1", 0, 0⟩, ⟨2, "s2", "b2", 1, 0⟩]

/-- A freshly created recipient row (as `create_campaign` makes it). -/
def exR0 : Recipient :=
  { id := 0, campaign_id := 1, contact_id := 10, current_step := 0,
    status := RecipientStatus.pending, last_sent_at := none,
    next_send_at := none, tracking_id := some (uuidStr 0),
    sent_message_id := none, open_count := 0, reply_detected_at := none,
    error_message := none }

/-- Initial state: Draft campaign, freshly created recipient, empty log. -/
def exS0 : SysState := ⟨CampaignStatus.draft, exR0, []⟩

/-- State after launching at time 0 (fresh-uuid counter 5). -/
def exS1 : SysState :=
  ⟨CampaignStatus.running,
    generate_tracking_id
      { exS0.recipient with
          status := RecipientStatus.pending, next_send_at := some 0 }
      (uuidStr 5),
    exS0.events⟩

/-- The provider result of a successful send with message id "mid". -/
def exRes : SendResult := ⟨true, some "mid", none⟩

/-- State after the dispatcher successfully sends step 1 at time 0. -/
def exS2 : SysState :=
  ⟨exS1.campaign,
    (send_campaign_email exS1.recipient exS1.campaign exSteps true exRes 0).recipient,
    exS1.events⟩

/-- A hard-bounce webhook event carrying the recipient's message id. -/
def exEv : BrevoEvent := ⟨"hard_bounce", "a@b.c", some "mid", some "full", none⟩

/-- State after the hard-bounce webhook lands at time 3. -/
def exS3 : SysState :=
  ⟨exS2.campaign,
    (processBrevoEvent exS2.recipient exS2.events exEv 3).1,
    (processBrevoEvent exS2.recipient exS2.events exEv 3).2⟩

/-- A one-step sequence whose only (hence last) step has a delay of
2 days + 3 hours. -/
def c3Steps : List CampaignEmail := [⟨1, "s", "b", 2, 3⟩]

/-- A recipient that has already replied, correlated to message id
"mid". -/
def c5R : Recipient :=
  { exR0 with
      status := RecipientStatus.replied,
      sent_message_id := some "mid",
      next_send_at := none,
      reply_detected_at := some 2 }

/-- The rows of a two-contact campaign after create + launch (launch at
time 5; fresh-uuid counters 0 at creation, 10 at launch). -/
def c9Launched : List Recipient :=
  launch_recipients (create_recipients 1 [3, 4] 0) 5 10

/-- The first row of `c9Launched`. -/
def c9Row : Recipient :=
  c9Launched.getD 0 exR0

/-! ## Helper lemmas -/

theorem pyTruthy_iff (o : Option String) :
    pyTruthy o = true ↔ ∃ s, o = some s ∧ s ≠ "" := by
  cases o <;> simp [pyTruthy]

theorem uuidStr_ne_empty (n : Nat) : uuidStr n ≠ "" := by
  unfold uuidStr
  intro h
  have hd := congrArg String.data h
  simp at hd

theorem uuidStr_injective {m n : Nat} (h : uuidStr m = uuidStr n) : m = n := by
  unfold uuidStr at h
  have hd := congrArg String.data h
  have hl := congrArg List.length hd
  simp at hl
  exact hl

theorem generate_tracking_id_status (r : Recipient) (f : String) :
    (generate_tracking_id r f).status = r.status := by
  unfold generate_tracking_id
  split <;> rfl

theorem generate_tracking_id_next_send_at (r : Recipient) (f : String) :
    (generate_tracking_id r f).next_send_at = r.next_send_at := by
  unfold generate_tracking_id
  split <;> rfl

/-! ## Claims -/

/-- C6: dispatching a recipient whose status is already Sent or Replied
is a no-op — the dispatcher returns without a provider call and without
mutating any field of the recipient row. -/
theorem dispatch_sent_or_replied_noop (r : Recipient) (cs : CampaignStatus)
    (steps : List CampaignEmail) (hasAccount : Bool) (res : SendResult) (now : Nat)
    (h : r.status = RecipientStatus.sent ∨ r.status = RecipientStatus.replied) :
    send_campaign_email r cs steps hasAccount res now = ⟨r, false⟩ := by
  unfold send_campaign_email
  rw [if_pos h]

/-- Witness for C6: the no-op at a concrete already-Sent recipient. -/
theorem dispatch_sent_or_replied_noop_witness :
    send_campaign_email { exR0 with status := RecipientStatus.sent }
        CampaignStatus.running exSteps true exRes 0
      = ⟨{ exR0 with status := RecipientStatus.sent }, false⟩ :=
  dispatch_sent_or_replied_noop _ _ _ _ _ _ (Or.inl rfl)

/-- C7: when the owning campaign is not Running, the dispatcher returns
without sending and without mutating any field of the recipient row, even
if `next_send_at` has elapsed. -/
theorem dispatch_campaign_not_running_noop (r : Recipient) (cs : CampaignStatus)
    (steps : List CampaignEmail) (hasAccount : Bool) (res : SendResult) (now : Nat)
    (h : cs ≠ CampaignStatus.running) :
    send_campaign_email r cs steps hasAccount res now = ⟨r, false⟩ := by
  unfold send_campaign_email
  split <;> rfl

/-- Witness for C7: a Paused campaign's recipient whose `next_send_at`
(= 0) has long elapsed (now = 1000) is left untouched. -/
theorem dispatch_campaign_not_running_noop_witness :
    send_campaign_email { exR0 with next_send_at := some 0 }
        CampaignStatus.paused exSteps true exRes 1000
      = ⟨{ exR0 with next_send_at := some 0 }, false⟩ :=
  dispatch_campaign_not_running_noop _ _ _ _ _ _ (by decide)

/-- C1: at the spec's own example input — step 1 with delay 0, step 2
with delay 1 day — a successful send of step 1 at time 100 commits
`next_send_at = some 100`, i.e. now + the delay of the step *just sent*,
although the next unsent step (step 2) carries a 24-hour delay, so the
claimed value is `some 124`. -/
theorem dispatch_next_send_at_uses_sent_step_delay :
    (send_campaign_email exR0 CampaignStatus.running exSteps true exRes 100).recipient.next_send_at
        = some 100
      ∧ findStep exSteps (exR0.current_step + 1 + 1) = some ⟨2, "s2", "b2", 1, 0⟩
      ∧ (⟨2, "s2", "b2", 1, 0⟩ : CampaignEmail).delayHours = 24
      ∧ some (100 : Nat) ≠ some (100 + 24) := by
  refine ⟨by decide, ?_, by decide, by decide⟩
  rfl

/-- C3 counterexample: in a one-step campaign, the successful send of the
(only, hence last) step commits status Sent — not Skipped — and a
non-null `next_send_at` (now 10 + the sent step's 51-hour delay). -/
theorem last_step_send_not_skipped :
    (send_campaign_email exR0 CampaignStatus.running c3Steps true exRes 10).recipient.status
        = RecipientStatus.sent
      ∧ (send_campaign_email exR0 CampaignStatus.running c3Steps true exRes 10).recipient.status
        ≠ RecipientStatus.skipped
      ∧ (send_campaign_email exR0 CampaignStatus.running c3Steps true exRes 10).recipient.next_send_at
        = some 61 := by
  refine ⟨by decide, by decide, by decide⟩

/-- C3 (amended): a successful send of any step — the last one included —
commits status Sent and re-arms `next_send_at` to now + the delay of the
step just sent; the Skipped transition happens only on a later dispatch
that finds no step `current_step + 1`, and that transition changes the
status alone, leaving `next_send_at` (and every other field) unchanged. -/
theorem dispatch_step_outcomes (r : Recipient) (steps : List CampaignEmail)
    (res : SendResult) (now : Nat)
    (hs : r.status ≠ RecipientStatus.sent) (hr : r.status ≠ RecipientStatus.replied) :
    (∀ st, findStep steps (r.current_step + 1) = some st → res.success = true →
      send_campaign_email r CampaignStatus.running steps true res now =
        ⟨{ r with
            status := RecipientStatus.sent
            current_step := r.current_step + 1
            last_sent_at := some now
            sent_message_id := res.message_id
            next_send_at := some (now + st.delayHours) }, true⟩)
    ∧ (findStep steps (r.current_step + 1) = none →
      send_campaign_email r CampaignStatus.running steps true res now =
        ⟨{ r with status := RecipientStatus.skipped }, false⟩) := by
  constructor
  · intro st hfind hsucc
    unfold send_campaign_email
    rw [if_neg (by simp [hs, hr])]
    rw [if_neg (by simp)]
    simp [hfind, hsucc]
  · intro hfind
    unfold send_campaign_email
    rw [if_neg (by simp [hs, hr])]
    rw [if_neg (by simp)]
    simp [hfind]

/-- Witness for C3 (amended): both branches at concrete inputs — a
successful send of step 1 of the two-step sequence, and an exhausted
dispatch at `current_step = 1` of the one-step sequence. -/
theorem dispatch_step_outcomes_witness :
    send_campaign_email exR0 CampaignStatus.running exSteps true exRes 0 =
        ⟨{ exR0 with
            status := RecipientStatus.sent
            current_step := 1
            last_sent_at := some 0
            sent_message_id := some "mid"
            next_send_at := some 0 }, true⟩
      ∧ send_campaign_email { exR0 with current_step := 1 }
          CampaignStatus.running c3Steps true exRes 0 =
        ⟨{ exR0 with current_step := 1, status := RecipientStatus.skipped }, false⟩ := by
  constructor
  · exact (dispatch_step_outcomes exR0 exSteps exRes 0 (by decide) (by decide)).1
      ⟨1, "s1", "b1", 0, 0⟩ (by decide) rfl
  · exact (dispatch_step_outcomes { exR0 with current_step := 1 } c3Steps exRes 0
      (by decide) (by decide)).2 (by decide)

/-- C5 counterexample: a recipient already in Replied status, matched by
its `sent_message_id`, is overwritten to Bounced by a hard-bounce
webhook event — the claimed Replied exception does not exist. -/
theorem bounce_overwrites_replied :
    c5R.status = RecipientStatus.replied
      ∧ findByMessageId [c5R] "mid" = some c5R
      ∧ (processBrevoEvent c5R [] exEv 7).1.status = RecipientStatus.bounced := by
  refine ⟨by decide, by decide, by decide⟩

/-- C5 (amended): a hard_bounce or soft_bounce webhook event sets the
matched recipient's status to Bounced and records the bounce reason in
`error_message`, for every prior status — including Replied, which is
overwritten like any other. -/
theorem bounce_sets_bounced_any_status (r : Recipient) (evs : List EmailEvent)
    (ev : BrevoEvent) (now : Nat)
    (h : ev.event = "hard_bounce" ∨ ev.event = "soft_bounce") :
    (processBrevoEvent r evs ev now).1 =
        { r with
            status := RecipientStatus.bounced
            error_message := some ("Bounce: " ++ strOr ev.reason ev.event) }
      ∧ (processBrevoEvent r evs ev now).2 = evs := by
  have hne : ev.event ≠ "delivered" := by
    rcases h with h | h <;> simp [h]
  unfold processBrevoEvent
  rw [if_neg hne, if_pos h]
  exact ⟨rfl, rfl⟩

/-- Witness for C5 (amended): the concrete Replied recipient is set to
Bounced with the reason recorded. -/
theorem bounce_sets_bounced_any_status_witness :
    (processBrevoEvent c5R [] exEv 7).1 =
        { c5R with
            status := RecipientStatus.bounced
            error_message := some "Bounce: full" }
      ∧ (processBrevoEvent c5R [] exEv 7).2 = [] :=
  bounce_sets_bounced_any_status c5R [] exEv 7 (Or.inl rfl)

/-- C10: the webhook endpoint returns 401 exactly when a (truthy) secret
is configured, a (truthy) `X-Brevo-Signature` header is present, and the
header differs from the HMAC-SHA256 hex digest of the raw body under the
secret; and a request that omits the header entirely gets 200 even with
a secret configured. -/
theorem webhook_401_iff (hm : String → List Nat → String) (secret : Option String)
    (body : List Nat) (sig : Option String) :
    (brevo_webhook_status hm secret body sig = 401 ↔
        pyTruthy secret = true ∧ pyTruthy sig = true ∧
          hm (secret.getD "") body ≠ sig.getD "")
      ∧ (sig = none → brevo_webhook_status hm secret body sig = 200) := by
  constructor
  · by_cases h1 : pyTruthy secret <;> by_cases h2 : pyTruthy sig <;>
      by_cases h3 : hm (secret.getD "") body = sig.getD "" <;>
        simp [brevo_webhook_status, verify_brevo_signature, h1, h2, h3]
  · intro hn
    subst hn
    simp [brevo_webhook_status, verify_brevo_signature, pyTruthy]

/-- Witness for C10: with a secret configured and the signature header
absent, the endpoint answers 200 — verification is bypassed. -/
theorem webhook_401_iff_witness :
    brevo_webhook_status (fun _ _ => "digest") (some "topsecret") [1, 2, 3] none = 200 :=
  (webhook_401_iff (fun _ _ => "digest") (some "topsecret") [1, 2, 3] none).2 rfl

theorem track_open_fst (r : Recipient) (evs : List EmailEvent) (now : Nat) :
    (track_open r evs now).1 = { r with open_count := r.open_count + 1 } := by
  simp only [track_open]
  split <;> rfl

theorem track_open_snd_of_has (r : Recipient) (evs : List EmailEvent) (now : Nat)
    (h : hasOpenEventToday evs r.id now = true) :
    (track_open r evs now).2 = evs := by
  simp only [track_open]
  rw [if_pos h]

theorem track_open_snd_of_not (r : Recipient) (evs : List EmailEvent) (now : Nat)
    (h : hasOpenEventToday evs r.id now = false) :
    (track_open r evs now).2 = evs ++ [⟨r.id, EventType.open, now⟩] := by
  simp only [track_open]
  rw [if_neg (by simp [h])]

/-- C4: reply detection on a Sent recipient commits status Replied,
stamps `reply_detected_at = now`, clears `next_send_at` and appends
exactly one REPLY EmailEvent; it is idempotent — a no-op on an
already-Replied recipient; and the poller never selects the updated row
again. -/
theorem reply_detection_effects (r : Recipient) (evs : List EmailEvent) (now : Nat) :
    (r.status = RecipientStatus.sent →
      mark_recipient_as_replied r evs now =
          ⟨{ r with
              status := RecipientStatus.replied
              reply_detected_at := some now
              next_send_at := none },
            evs ++ [⟨r.id, EventType.reply, now⟩]⟩
        ∧ (∀ now2 maxN,
            process_pending_emails [(mark_recipient_as_replied r evs now).1] now2 maxN = [])
        ∧ (∀ now2, isDue (mark_recipient_as_replied r evs now).1 now2 = false))
    ∧ (r.status = RecipientStatus.replied →
        mark_recipient_as_replied r evs now = ⟨r, evs⟩) := by
  constructor
  · intro hs
    have hne : r.status ≠ RecipientStatus.replied := by simp [hs]
    refine ⟨?_, ?_, ?_⟩
    · unfold mark_recipient_as_replied
      rw [if_neg hne]
    · intro now2 maxN
      unfold mark_recipient_as_replied
      rw [if_neg hne]
      simp [process_pending_emails, isDue]
    · intro now2
      unfold mark_recipient_as_replied
      rw [if_neg hne]
      simp [isDue]
  · intro hs
    unfold mark_recipient_as_replied
    rw [if_pos hs]

/-- Witness for C4: the concrete Sent recipient is marked Replied with
one REPLY event appended, and the already-Replied recipient is left
untouched. -/
theorem reply_detection_effects_witness :
    mark_recipient_as_replied { exR0 with status := RecipientStatus.sent } [] 4 =
        ⟨{ exR0 with
            status := RecipientStatus.replied
            reply_detected_at := some 4
            next_send_at := none },
          [⟨0, EventType.reply, 4⟩]⟩
      ∧ mark_recipient_as_replied c5R [] 4 = ⟨c5R, []⟩ := by
  constructor
  · exact ((reply_detection_effects { exR0 with status := RecipientStatus.sent } [] 4).1 rfl).1
  · exact (reply_detection_effects c5R [] 4).2 rfl

/-- C8: every open-pixel hit answers the fixed 1×1 PNG; a recognised hit
increments `open_count` by exactly one; the OPEN event is appended only
when none exists for that recipient in the current calendar day; and two
same-day hits on a day with no prior OPEN event leave `open_count`
incremented twice with exactly one OPEN event for that day. -/
theorem open_pixel_behavior (rs : List Recipient) (r : Recipient)
    (evs : List EmailEvent) (tid : String) (now now2 : Nat) :
    (track_open_route rs evs tid now).response = TRACKING_PIXEL
    ∧ (track_open r evs now).1 = { r with open_count := r.open_count + 1 }
    ∧ (hasOpenEventToday evs r.id now = true → (track_open r evs now).2 = evs)
    ∧ (hasOpenEventToday evs r.id now = false →
        (track_open r evs now).2 = evs ++ [⟨r.id, EventType.open, now⟩])
    ∧ (hasOpenEventToday evs r.id now = false → now / 24 = now2 / 24 → now ≤ now2 →
        (track_open (track_open r evs now).1 (track_open r evs now).2 now2).1.open_count
            = r.open_count + 2
          ∧ countOpenToday
              (track_open (track_open r evs now).1 (track_open r evs now).2 now2).2 r.id now2
            = 1) := by
  refine ⟨?_, track_open_fst r evs now, track_open_snd_of_has r evs now,
    track_open_snd_of_not r evs now, ?_⟩
  · unfold track_open_route
    split <;> rfl
  · intro h hday hle
    have hts : todayStart now2 ≤ now := by
      unfold todayStart
      rw [← hday]
      exact Nat.div_mul_le_self now 24
    have hsame : todayStart now = todayStart now2 := by
      unfold todayStart
      rw [hday]
    have e1 : (track_open r evs now).2 = evs ++ [⟨r.id, EventType.open, now⟩] :=
      track_open_snd_of_not r evs now h
    have hid : (track_open r evs now).1.id = r.id := by
      rw [track_open_fst]
    have h2 : hasOpenEventToday (track_open r evs now).2 (track_open r evs now).1.id now2
        = true := by
      rw [hid, e1]
      unfold hasOpenEventToday
      rw [List.any_append]
      simp [hts]
    constructor
    · rw [track_open_fst, track_open_fst]
    · have h2b : hasOpenEventToday (track_open r evs now).2
          ((track_open r evs now).1).id now2 = true := h2
      have e2 : (track_open (track_open r evs now).1 (track_open r evs now).2 now2).2
          = (track_open r evs now).2 :=
        track_open_snd_of_has (track_open r evs now).1 (track_open r evs now).2 now2 h2b
      rw [e2, e1]
      unfold countOpenToday
      rw [List.filter_append]
      have hnil : evs.filter (fun e =>
          e.campaign_recipient_id = r.id &&
          e.event_type = EventType.open &&
          todayStart now2 ≤ e.timestamp) = [] := by
        rw [List.filter_eq_nil_iff]
        unfold hasOpenEventToday at h
        rw [List.any_eq_false] at h
        intro a ha
        have := h a ha
        rw [← hsame]
        exact this
      rw [hnil]
      simp [hts]

/-- Witness for C8: two same-day hits (hours 25 and 26 of day 1) on a
recipient with an empty event log: `open_count` goes from 0 to 2, the
log gains exactly one OPEN event for that day, and both route responses
are the fixed pixel. -/
theorem open_pixel_behavior_witness :
    (track_open_route [exR0] [] "u" 25).response = TRACKING_PIXEL
      ∧ (track_open (track_open exR0 [] 25).1 (track_open exR0 [] 25).2 26).1.open_count = 2
      ∧ countOpenToday
          (track_open (track_open exR0 [] 25).1 (track_open exR0 [] 25).2 26).2 exR0.id 26
        = 1 := by
  have h := open_pixel_behavior [exR0] exR0 [] "u" 25 26
  have h5 := h.2.2.2.2 (by decide) (by decide) (by decide)
  exact ⟨h.1, h5.1, h5.2⟩

theorem send_campaign_email_replyCancelled (r : Recipient) (cs : CampaignStatus)
    (steps : List CampaignEmail) (acc : Bool) (res : SendResult) (now : Nat)
    (h : r.status = RecipientStatus.replied → r.next_send_at = none) :
    (send_campaign_email r cs steps acc res now).recipient.status = RecipientStatus.replied →
      (send_campaign_email r cs steps acc res now).recipient.next_send_at = none := by
  rcases hfind : findStep steps (r.current_step + 1) with _ | st <;>
    [skip; skip] <;>
    · unfold send_campaign_email
      simp only [hfind]
      repeat' split
      all_goals intro hc
      all_goals first
        | exact h hc
        | simp at hc

theorem processBrevoEvent_replyCancelled (r : Recipient) (evs : List EmailEvent)
    (ev : BrevoEvent) (now : Nat)
    (h : r.status = RecipientStatus.replied → r.next_send_at = none) :
    (processBrevoEvent r evs ev now).1.status = RecipientStatus.replied →
      (processBrevoEvent r evs ev now).1.next_send_at = none := by
  unfold processBrevoEvent
  repeat' split
  all_goals intro hc
  all_goals first
    | exact h hc
    | simp at hc

theorem mark_recipient_as_replied_replyCancelled (r : Recipient)
    (evs : List EmailEvent) (now : Nat)
    (h : r.status = RecipientStatus.replied → r.next_send_at = none) :
    (mark_recipient_as_replied r evs now).1.status = RecipientStatus.replied →
      (mark_recipient_as_replied r evs now).1.next_send_at = none := by
  unfold mark_recipient_as_replied
  split
  · exact h
  · intro _
    rfl

theorem track_open_replyCancelled (r : Recipient) (evs : List EmailEvent) (now : Nat)
    (h : r.status = RecipientStatus.replied → r.next_send_at = none) :
    (track_open r evs now).1.status = RecipientStatus.replied →
      (track_open r evs now).1.next_send_at = none := by
  rw [track_open_fst]
  exact h

theorem step_replyCancelled {steps : List CampaignEmail} {s1 s2 : SysState}
    (hstep : Step steps s1 s2) (h : ReplyCancelled s1) : ReplyCancelled s2 := by
  cases hstep with
  | launch now base hc =>
      intro hrep
      rw [generate_tracking_id_status] at hrep
      simp at hrep
  | pause hc => exact h
  | dispatch acc res now =>
      intro hrep
      exact send_campaign_email_replyCancelled _ _ _ _ _ _ h hrep
  | webhook ev now =>
      intro hrep
      exact processBrevoEvent_replyCancelled _ _ _ _ h hrep
  | reply now =>
      intro hrep
      exact mark_recipient_as_replied_replyCancelled _ _ _ h hrep
  | cancel =>
      intro _
      rfl
  | trackOpen now =>
      intro hrep
      exact track_open_replyCancelled _ _ _ h hrep

theorem reach_replyCancelled {steps : List CampaignEmail} {s0 s : SysState}
    (h0 : ReplyCancelled s0) (h : Reach steps s0 s) : ReplyCancelled s := by
  unfold Reach at h
  induction h with
  | refl => exact h0
  | tail _ hstep ih => exact step_replyCancelled hstep ih

/-- C2 (amended): over every state reachable from a state satisfying the
per-row property "Replied implies nothing scheduled", a non-null
`next_send_at` implies the status is not Replied. The stronger claimed
invariant — non-null `next_send_at` implies Pending, never
Sent/Bounced/Failed/Skipped — fails on the code (see the
counterexample): only reply detection clears `next_send_at`, while the
dispatcher and the webhook transitions leave it armed. -/
theorem reach_next_send_at_not_replied (steps : List CampaignEmail) (s0 s : SysState)
    (h0 : ReplyCancelled s0) (h : Reach steps s0 s)
    (hn : s.recipient.next_send_at ≠ none) :
    s.recipient.status ≠ RecipientStatus.replied := by
  intro hrep
  exact hn (reach_replyCancelled h0 h hrep)

/-- Witness for C2 (amended): the state reached by launch + successful
dispatch has a non-null `next_send_at`, and the theorem yields that its
status is not Replied. -/
theorem reach_next_send_at_not_replied_witness :
    exS2.recipient.status ≠ RecipientStatus.replied := by
  have h01 : Step exSteps exS0 exS1 := Step.launch exS0 0 5 rfl
  have h12 : Step exSteps exS1 exS2 := Step.dispatch exS1 true exRes 0
  exact reach_next_send_at_not_replied exSteps exS0 exS2 (fun hrep => absurd hrep (by decide))
    (Relation.ReflTransGen.tail (Relation.ReflTransGen.tail Relation.ReflTransGen.refl h01) h12)
    (by decide)

/-- C2 counterexample: after launch and a successful dispatch the
recipient is Sent — not Pending — with `next_send_at = some 0` still
armed; and a further hard-bounce webhook leaves it Bounced with
`next_send_at = some 0` — a terminal status with a non-null
`next_send_at`, violating both halves of the claimed invariant. -/
theorem next_send_at_nonnull_not_pending :
    Reach exSteps exS0 exS2
      ∧ exS2.recipient.next_send_at = some 0
      ∧ exS2.recipient.status ≠ RecipientStatus.pending
      ∧ Reach exSteps exS0 exS3
      ∧ exS3.recipient.status = RecipientStatus.bounced
      ∧ exS3.recipient.next_send_at = some 0 := by
  have h01 : Step exSteps exS0 exS1 := Step.launch exS0 0 5 rfl
  have h12 : Step exSteps exS1 exS2 := Step.dispatch exS1 true exRes 0
  have h23 : Step exSteps exS2 exS3 := Step.webhook exS2 exEv 3
  refine ⟨?_, by decide, by decide, ?_, by decide, by decide⟩
  · exact Relation.ReflTransGen.tail
      (Relation.ReflTransGen.tail Relation.ReflTransGen.refl h01) h12
  · exact Relation.ReflTransGen.tail (Relation.ReflTransGen.tail
      (Relation.ReflTransGen.tail Relation.ReflTransGen.refl h01) h12) h23

theorem create_recipients_length (cid : Nat) (cs : List Nat) (b : Nat) :
    (create_recipients cid cs b).length = cs.length := by
  induction cs generalizing b with
  | nil => rfl
  | cons c cs ih => simp [create_recipients, ih]

theorem mem_create_recipients {cid : Nat} {cs : List Nat} {b : Nat} {r : Recipient}
    (h : r ∈ create_recipients cid cs b) :
    ∃ k, b ≤ k ∧ r.tracking_id = some (uuidStr k) := by
  induction cs generalizing b with
  | nil => cases h
  | cons c cs ih =>
      simp only [create_recipients, List.mem_cons] at h
      rcases h with h | h
      · subst h
        refine ⟨b, le_refl b, ?_⟩
        simp [generate_tracking_id, pyTruthy]
      · obtain ⟨k, hk, htr⟩ := ih h
        exact ⟨k, by omega, htr⟩

theorem create_recipients_tracking_nodup (cid : Nat) (cs : List Nat) (b : Nat) :
    ((create_recipients cid cs b).map (fun r => r.tracking_id)).Nodup := by
  induction cs generalizing b with
  | nil => simp [create_recipients]
  | cons c cs ih =>
      simp only [create_recipients, List.map_cons, List.nodup_cons]
      constructor
      · intro hmem
        obtain ⟨r2, hr2, heq⟩ := List.mem_map.mp hmem
        obtain ⟨k, hk, htr⟩ := mem_create_recipients hr2
        rw [htr] at heq
        have hu : uuidStr k = uuidStr b := by
          have hgen : (generate_tracking_id
              { id := b, campaign_id := cid, contact_id := c,
                current_step := 0, status := RecipientStatus.pending,
                last_sent_at := none, next_send_at := none,
                tracking_id := none, sent_message_id := none,
                open_count := 0, reply_detected_at := none,
                error_message := none } (uuidStr b)).tracking_id = some (uuidStr b) := by
            simp [generate_tracking_id, pyTruthy]
          rw [hgen] at heq
          exact Option.some.inj heq
        have := uuidStr_injective hu
        omega
      · exact ih (b + 1)

theorem launch_recipients_length (rs : List Recipient) (now b : Nat) :
    (launch_recipients rs now b).length = rs.length := by
  induction rs generalizing b with
  | nil => rfl
  | cons r rs ih => simp [launch_recipients, ih]

theorem launch_recipients_map_tracking (rs : List Recipient) (now b : Nat)
    (h : ∀ r ∈ rs, pyTruthy r.tracking_id = true) :
    (launch_recipients rs now b).map (fun r => r.tracking_id)
      = rs.map (fun r => r.tracking_id) := by
  induction rs generalizing b with
  | nil => rfl
  | cons r rs ih =>
      simp only [launch_recipients, List.map_cons]
      have hr : pyTruthy r.tracking_id = true := h r (List.mem_cons_self r rs)
      have hhead : (generate_tracking_id
          { r with status := RecipientStatus.pending, next_send_at := some now }
          (uuidStr b)).tracking_id = r.tracking_id := by
        unfold generate_tracking_id
        rw [if_neg (by simp [hr])]
      rw [hhead, ih (b + 1) (fun x hx => h x (List.mem_cons_of_mem r hx))]

theorem mem_launch_recipients {rs : List Recipient} {now b : Nat} {r2 : Recipient}
    (h : r2 ∈ launch_recipients rs now b) :
    r2.status = RecipientStatus.pending ∧ r2.next_send_at = some now
      ∧ pyTruthy r2.tracking_id = true := by
  induction rs generalizing b with
  | nil => cases h
  | cons r rs ih =>
      simp only [launch_recipients, List.mem_cons] at h
      rcases h with h | h
      · subst h
        unfold generate_tracking_id
        split
        · refine ⟨rfl, rfl, ?_⟩
          simp [pyTruthy, uuidStr_ne_empty b]
        · next hf =>
            refine ⟨rfl, rfl, ?_⟩
            simp only [Bool.not_eq_true] at hf
            simp at hf
            exact hf
      · exact ih h

/-- C9: launching the recipient rows created for a campaign with N
contacts gives exactly N rows, each Pending with `next_send_at` equal to
the launch time and a non-empty tracking id; the tracking ids are
pairwise distinct; and the ids issued at creation are kept by the launch,
not regenerated. -/
theorem launch_after_create_properties (cid : Nat) (cs : List Nat) (now b1 b2 : Nat) :
    (launch_recipients (create_recipients cid cs b1) now b2).length = cs.length
    ∧ (∀ r ∈ launch_recipients (create_recipients cid cs b1) now b2,
        r.status = RecipientStatus.pending ∧ r.next_send_at = some now
          ∧ ∃ s, r.tracking_id = some s ∧ s ≠ "")
    ∧ (launch_recipients (create_recipients cid cs b1) now b2).map (fun r => r.tracking_id)
        = (create_recipients cid cs b1).map (fun r => r.tracking_id)
    ∧ ((launch_recipients (create_recipients cid cs b1) now b2).map
        (fun r => r.tracking_id)).Nodup := by
  have hcreated : ∀ r ∈ create_recipients cid cs b1, pyTruthy r.tracking_id = true := by
    intro r hr
    obtain ⟨k, _, htr⟩ := mem_create_recipients hr
    simp [htr, pyTruthy, uuidStr_ne_empty k]
  refine ⟨?_, ?_, ?_, ?_⟩
  · rw [launch_recipients_length, create_recipients_length]
  · intro r hr
    obtain ⟨h1, h2, h3⟩ := mem_launch_recipients hr
    exact ⟨h1, h2, (pyTruthy_iff _).mp h3⟩
  · exact launch_recipients_map_tracking _ _ _ hcreated
  · rw [launch_recipients_map_tracking _ _ _ hcreated]
    exact create_recipients_tracking_nodup cid cs b1

/-- Witness for C9: the two-contact concrete campaign `c9Launched` has 2
rows, pairwise-distinct (kept) tracking ids, and its first row is Pending
with `next_send_at = some 5`. -/
theorem launch_after_create_properties_witness :
    c9Launched.length = 2
      ∧ (c9Launched.map (fun r => r.tracking_id)).Nodup
      ∧ c9Row.status = RecipientStatus.pending
      ∧ c9Row.next_send_at = some 5 := by
  obtain ⟨h1, h2, h3, h4⟩ := launch_after_create_properties 1 [3, 4] 5 0 10
  have hm : c9Row ∈ c9Launched := by decide
  obtain ⟨hs, hn, _⟩ := h2 c9Row hm
  exact ⟨h1, h4, hs, hn⟩

end ReComposer
